import Mathlib

/-!
Shallow embedding of the session/state-management and message-rendering layer
of the data-analysis agent (src/agents/agent.py and src/agents/one_shot_agent.py).

Files on disk are modelled as `Option String` (none = absent, some c = full
contents).  Python string operations are re-implemented over `List Char` so
that all definitions evaluate inside the kernel.  Injected I/O failures
(disk-full, failed os.remove, failed truncate, failed non-atomic fallback)
are explicit parameters; passing `none` / `false` / `FallbackOutcome.ok`
models the normal successful path.
-/

/-- Characters stripped by Python's str.strip(). -/
def isPySpace (c : Char) : Bool :=
  c == ' ' || c == '\t' || c == '\n' || c == '\r' || c == '\x0b' || c == '\x0c'

/-- Python str.strip(): drop whitespace from both ends. -/
def pyStrip (s : String) : String :=
  String.mk (((s.data.dropWhile isPySpace).reverse.dropWhile isPySpace).reverse)

/-- Python str.endswith(suffix). -/
def pyEndsWith (s suf : String) : Bool :=
  List.isSuffixOf suf.data s.data

/-- Python slicing s[:n]. -/
def pyTake (n : Nat) (s : String) : String :=
  String.mk (s.data.take n)

/-- The suffix of `s` strictly after its last newline (whole string if no
newline).  This is what the reverse scan in `_maybe_handle_init` reads:
it seeks backwards to the last `\n`, seeks one past it and calls readline. -/
def afterLastNewline (s : String) : String :=
  String.mk ((s.data.reverse.takeWhile (fun c => c != '\n')).reverse)

/-- ClaudeAgentOptions, restricted to the field the session layer varies:
the optional `resume` session id. -/
structure AgentOptions where
  resume : Option String
deriving DecidableEq

/-- The ConversationSession state: in-memory session id, the last options
built by connect(), and the on-disk files (latest-session-id file, history
log, and the temp file used by the atomic write). -/
structure ConversationSession where
  session_id : Option String
  options : Option AgentOptions
  latestFile : Option String
  historyFile : Option String
  tmpFile : Option String
deriving DecidableEq

/-- `_build_options`: if the session-id file exists, resume = its stripped
contents unless empty; otherwise no resume. -/
def build_options (latestFile : Option String) : AgentOptions :=
  match latestFile with
  | none => { resume := none }
  | some c =>
    let r := pyStrip c
    { resume := if r = "" then none else some r }

/-- `connect()`: rebuilds options fresh from the session-id file every time
(`self.options = self._build_options()`). -/
def connectStep (s : ConversationSession) : ConversationSession :=
  { s with options := some (build_options s.latestFile) }

/-- Appending a line to a file opened in mode "a" (created when absent). -/
def appendFile : Option String → String → Option String
  | none, l => some l
  | some h, l => some (h ++ l)

/-- The "last line" computed by the reverse scan in `_maybe_handle_init`:
None for an empty file, else the stripped text after the last newline. -/
def lastLineOf (content : String) : Option String :=
  if content = "" then none
  else some (pyStrip (afterLastNewline content))

/-- `append_sid` decision in `_maybe_handle_init`: append unless the file
exists and the scanned last line is non-empty and ends with tab+sid. -/
def append_sid_decision (historyFile : Option String) (sid : String) : Bool :=
  match historyFile with
  | none => true
  | some content =>
    match lastLineOf content with
    | none => true
    | some l => !(l != "" && pyEndsWith l ("\t" ++ sid))

/-- An SDK message as seen by `_maybe_handle_init`: its subtype, whether its
`data` attribute is a dict, and the dict entries (values modelled as strings,
the empty string standing for a falsy value). -/
structure InitMsg where
  subtype : Option String
  dataIsDict : Bool
  data : List (String × String)
deriving DecidableEq

/-- Python truthiness filter on an optional string (None and "" are falsy). -/
def truthyStr : Option String → Option String
  | some s => if s = "" then none else some s
  | none => none

/-- `data.get("session_id") or data.get("sessionId") or data.get("id")`
followed by `if not sid: return`. -/
def extractSid (d : List (String × String)) : Option String :=
  truthyStr (d.lookup "session_id") <|> truthyStr (d.lookup "sessionId") <|> truthyStr (d.lookup "id")

/-- `_write_atomic`: write text to path.tmp, flush+fsync, then os.replace.
`tmpWriteFail = some w` injects a failed temp write that got as far as the
content `w` before raising OSError; the target file is only ever assigned by
os.replace, which runs after a fully successful temp write.  Returns the new
state and whether OSError was raised. -/
def write_atomic (tmpWriteFail : Option String) (s : ConversationSession)
    (text : String) : ConversationSession × Bool :=
  match tmpWriteFail with
  | some w => ({ s with tmpFile := some w }, true)
  | none => ({ s with tmpFile := none, latestFile := some text }, false)

/-- Outcome of the non-atomic fallback `open(path, "w"); f.write(sid)`:
`ok` — the write succeeds; `openFails` — open() itself raises, the file is
untouched; `writeFails w` — open() succeeds, truncating the file, and the
write/flush/close then raises after the portion `w` of the id reached the
file (empty in the disk-full case).  The caught exception is only logged. -/
inductive FallbackOutcome where
  | ok
  | openFails
  | writeFails (w : String)
deriving DecidableEq

/-- The save step of `_maybe_handle_init`: try `_write_atomic`; on OSError
fall back to a plain non-atomic write.  Opening the target with mode "w"
truncates it, so a fallback failing after a successful open leaves the file
holding only the written portion, not its prior contents. -/
def saveLatestSid (tmpWriteFail : Option String) (fb : FallbackOutcome)
    (s : ConversationSession) (sid : String) : ConversationSession :=
  let r := write_atomic tmpWriteFail s sid
  if r.2 then
    match fb with
    | .ok => { r.1 with latestFile := some sid }
    | .openFails => r.1
    | .writeFails w => { r.1 with latestFile := some w }
  else r.1

/-- `_maybe_handle_init(msg)`: ignore non-init messages, non-dict data,
missing/falsy session ids and ids equal to the in-memory one; otherwise
append to history (subject to `append_sid_decision`), save the latest id
(atomic with non-atomic fallback) and update the in-memory id. -/
def maybe_handle_init (tmpWriteFail : Option String) (fb : FallbackOutcome)
    (ts : String) (msg : InitMsg) (s : ConversationSession) : ConversationSession :=
  if msg.subtype ≠ some "init" ∨ msg.dataIsDict = false then s
  else
    match extractSid msg.data with
    | none => s
    | some sid =>
      if s.session_id = some sid then s
      else
        let hist' :=
          if append_sid_decision s.historyFile sid
          then appendFile s.historyFile (ts ++ "\t" ++ sid ++ "\n")
          else s.historyFile
        let s2 := saveLatestSid tmpWriteFail fb { s with historyFile := hist' } sid
        { s2 with session_id := some sid }

/-- An init message carrying `session_id = sid` in its data dict. -/
def initMsgFor (sid : String) : InitMsg :=
  { subtype := some "init", dataIsDict := true, data := [("session_id", sid)] }

/-- The archive/remove/clear part of the interactive `new` command in
`start()`: if the latest file exists, append its stripped id (when non-empty)
to history unconditionally, then remove the file; if removal fails, truncate
it to empty; if that also fails, leave it; finally clear the in-memory id. -/
def resetSessionCmd (removeFails truncFails : Bool) (ts : String)
    (s : ConversationSession) : ConversationSession :=
  match s.latestFile with
  | none => { s with session_id := none }
  | some c =>
    let sid := pyStrip c
    let hist' :=
      if sid ≠ "" then appendFile s.historyFile (ts ++ "\t" ++ sid ++ "\n")
      else s.historyFile
    let latest' :=
      if removeFails then (if truncFails then some c else some "") else none
    { s with historyFile := hist', latestFile := latest', session_id := none }

/-!
## Message renderer (display_message in agent.py)

`ToolResultBlock.content` from the SDK is a dict, a list, a string or None.
`json.dumps(content, ...)` is an external serializer; its output is carried
as a `dumps` field on the structured constructors.  Console output and log
output are modelled as lists of lines; log lines carry their level.
-/

/-- Tool-result content as seen by the renderer.  For structured content the
pretty-printed json.dumps output is carried as data. -/
inductive RContent where
  | rdict (entries : List (String × String)) (dumps : String)
  | rlist (dumps : String)
  | rstr (s : String)
  | rnone
deriving DecidableEq

/-- Assistant-message blocks dispatched by display_message. -/
inductive ABlock where
  | textBlock (text : String)
  | toolUseBlock (name : String) (inputRepr : Option String)
  | toolResultBlock (content : RContent)
  | otherBlock (typeName : String)
deriving DecidableEq

/-- `_get_status`: dict → .get("status"); anything else →
getattr(obj, "status", None), which is None for list/str/None. -/
def getStatus : RContent → Option String
  | .rdict entries _ => entries.lookup "status"
  | _ => none

/-- The body of the per-block try in the assistant branch: returns the
console lines and log lines emitted before the body finished or raised, and
whether an AttributeError escaped.  `content.status` (no getattr default)
raises AttributeError for dict, list, str and None content, after any output
already printed. -/
def renderAssistantBlockRaw : ABlock → List String × List String × Bool
  | .textBlock t => (["Claude: " ++ t], ["INFO Assistant text block: " ++ t], false)
  | .toolUseBlock name inp =>
      (["[Tool use] " ++ name],
       ["INFO [Tool use] " ++ name] ++
         (match inp with | some i => ["INFO   Input: " ++ i] | none => []),
       false)
  | .toolResultBlock c =>
      let statusLog :=
        match getStatus c with
        | some st => ["INFO Tool status: " ++ st]
        | none => []
      match c with
      | .rdict _ _ => (["[Tool result]:"], statusLog, true)
      | .rlist _ => (["[Tool result]:"], statusLog, true)
      | .rstr _ => ([], statusLog, true)
      | .rnone => ([], statusLog, true)
  | .otherBlock ty =>
      (["[Unknown block type: " ++ ty ++ "]"],
       ["INFO [Unknown block type: " ++ ty ++ "]"], false)

/-- One assistant block with its failure boundary: an AttributeError raised
by the body is caught by `except (AttributeError, KeyError, TypeError)` and
logged at debug level; the block is then skipped. -/
def renderAssistantBlock (b : ABlock) : List String × List String :=
  let r := renderAssistantBlockRaw b
  if r.2.2 then (r.1, r.2.1 ++ ["DEBUG Error rendering assistant block: AttributeError"])
  else (r.1, r.2.1)

/-- The assistant branch of display_message over a batch of blocks:
each block rendered inside its own failure boundary, outputs concatenated. -/
def displayAssistantMessage (blocks : List ABlock) : List String × List String :=
  ((blocks.map fun b => (renderAssistantBlock b).1).flatten,
   (blocks.map fun b => (renderAssistantBlock b).2).flatten)

/-- User-message blocks dispatched by display_message. -/
inductive UBlock where
  | utextBlock (text : String)
  | utoolResultBlock (content : RContent)
  | uother
deriving DecidableEq

/-- The user-branch preview: json.dumps(content, indent=2)[:200] for
dict/list content, str(content)[:200] otherwise (str(None) = "None"). -/
def userToolResultPreview : RContent → String
  | .rdict _ d => pyTake 200 d
  | .rlist d => pyTake 200 d
  | .rstr s => pyTake 200 s
  | .rnone => pyTake 200 "None"

/-- One user block: text goes to the console; tool results go only to the
log as a 200-char preview; other blocks are ignored. -/
def renderUserBlock : UBlock → List String × List String
  | .utextBlock t => (["User: " ++ t], [])
  | .utoolResultBlock c =>
      ([], ["INFO User (tool result preview): " ++ userToolResultPreview c])
  | .uother => ([], [])

/-!
## One-shot runner (one_shot_agent.py)
-/

/-- JSON values, as produced by parsing a tool's inner text payload. -/
inductive JVal where
  | jnull
  | jbool (b : Bool)
  | jnum (n : Int)
  | jstr (s : String)
  | jarr (xs : List JVal)
  | jobj (fields : List (String × JVal))

/-- dict.get on a JSON object's fields. -/
def jLookup (fields : List (String × JVal)) (k : String) : Option JVal :=
  fields.lookup k

/-- Python truthiness of a JSON value. -/
def pyTruthy : JVal → Bool
  | .jnull => false
  | .jbool b => b
  | .jnum n => n != 0
  | .jstr s => s != ""
  | .jarr xs => !xs.isEmpty
  | .jobj fs => !fs.isEmpty

/-- The one-shot AgentState dataclass. -/
structure AgentState where
  query : String
  intent : Option String
  results : Option JVal
  insights : Option String
  data_issues : List JVal

/-- The state update applied to a parsed tool result in the one-shot loop:
a dict with ok = False (the literal) or status in ("insufficient", "error")
is appended to data_issues; otherwise results is set from "result", "total"
or the whole dict; non-dict parses set results to a wrapper. -/
def errorShape (p : JVal) : Bool :=
  match p with
  | .jobj fs =>
      (match jLookup fs "ok" with
       | some (.jbool false) => true
       | _ => false)
      ||
      (match jLookup fs "status" with
       | some (.jstr st) => st == "insufficient" || st == "error"
       | _ => false)
  | _ => false

/-- The `if isinstance(parsed_result, dict): ...` state update of the
one-shot receive loop. -/
def updateStateForParsed (p : JVal) (st : AgentState) : AgentState :=
  match p with
  | .jobj fs =>
    if errorShape (.jobj fs) then { st with data_issues := st.data_issues ++ [.jobj fs] }
    else
      match jLookup fs "result" with
      | some r => { st with results := some r }
      | none =>
        match jLookup fs "total" with
        | some t =>
            let col := (jLookup fs "column").getD JVal.jnull
            { st with results := some (JVal.jobj [("column", col), ("total", t)]) }
        | none => { st with results := some (.jobj fs) }
  | _ => { st with results := some (.jobj [("tool_result", p)]) }

/-- One element of a list-shaped tool-result content: whether it is a dict,
and its "type"/"text" entries. -/
structure OSPart where
  isDict : Bool
  ptype : Option String
  ptext : Option String
deriving DecidableEq

/-- ToolResultBlock.content in the one-shot loop; the compact json.dumps
output used for the console preview is carried as data on the structured
constructors. -/
inductive OSContent where
  | clist (parts : List OSPart) (dumps : String)
  | cstr (s : String)
  | cdict (fields : List (String × JVal)) (dumps : String)
  | cother (reprStr : String)

/-- Scan a list content for the first dict part with type "text" and return
`(part.get("text") or "").strip()`. -/
def findTextPart : List OSPart → Option String
  | [] => none
  | p :: rest =>
      if p.isDict && p.ptype == some "text"
      then some (pyStrip (p.ptext.getD ""))
      else findTextPart rest

/-- `safe_parse_tool_text(txt) or JSON-dict with raw_text`: the parse result is
kept only when truthy (Python `or`), else the raw_text wrapper is used.
`parse` stands for Python's json.loads (external collaborator). -/
def parseWithRaw (parse : String → Option JVal) (txt : String) : JVal :=
  match parse txt with
  | some v => if pyTruthy v then v else .jobj [("raw_text", .jstr txt)]
  | none => .jobj [("raw_text", .jstr txt)]

/-- Extraction of parsed_result from a tool-result block's content in the
one-shot loop (None when a list has no text part, repr wrapper otherwise). -/
def extractParsed (parse : String → Option JVal) : OSContent → JVal
  | .clist parts _ =>
      match findTextPart parts with
      | some txt => parseWithRaw parse txt
      | none => .jnull
  | .cstr s => parseWithRaw parse s
  | .cdict fs _ => .jobj fs
  | .cother r => .jobj [("repr", .jstr r)]

/-- Full handling of one ToolResultBlock in the one-shot receive loop:
extract the parsed result, then update the AgentState. -/
def processToolResultBlock (parse : String → Option JVal) (c : OSContent)
    (st : AgentState) : AgentState :=
  updateStateForParsed (extractParsed parse c) st

/-- The console preview line printed by the one-shot loop for a tool result:
compact json.dumps truncated to 1000 chars for dict/list content,
str(content)[:1000] otherwise. -/
def oneShotPreviewLine : OSContent → String
  | .clist _ d => "[Tool result] preview: " ++ pyTake 1000 d
  | .cdict _ d => "[Tool result] preview: " ++ pyTake 1000 d
  | .cstr s => "[Tool result] preview: " ++ pyTake 1000 s
  | .cother r => "[Tool result] preview: " ++ pyTake 1000 r

/-- A fresh session state: nothing in memory, no files on disk. -/
def sampleSession : ConversationSession :=
  { session_id := none, options := none, latestFile := none,
    historyFile := none, tmpFile := none }

/-!
## Helper lemmas
-/

lemma pyStrip_empty : pyStrip "" = "" := by decide

lemma saveLatestSid_historyFile (a : Option String) (fb : FallbackOutcome)
    (s : ConversationSession) (sid : String) :
    (saveLatestSid a fb s sid).historyFile = s.historyFile := by
  cases a <;> cases fb <;> simp [saveLatestSid, write_atomic]

lemma saveLatestSid_session_id (a : Option String) (fb : FallbackOutcome)
    (s : ConversationSession) (sid : String) :
    (saveLatestSid a fb s sid).session_id = s.session_id := by
  cases a <;> cases fb <;> simp [saveLatestSid, write_atomic]

lemma extractSid_initMsgFor (sid : String) (h : sid ≠ "") :
    extractSid (initMsgFor sid).data = some sid := by
  simp [extractSid, initMsgFor, List.lookup, truthyStr, h]

lemma maybe_handle_init_notinit (a : Option String) (fb : FallbackOutcome) (ts : String)
    (msg : InitMsg) (s : ConversationSession) (h : msg.subtype ≠ some "init") :
    maybe_handle_init a fb ts msg s = s := by
  simp [maybe_handle_init, h]

lemma maybe_handle_init_nosid (a : Option String) (fb : FallbackOutcome) (ts : String)
    (msg : InitMsg) (s : ConversationSession) (h : extractSid msg.data = none) :
    maybe_handle_init a fb ts msg s = s := by
  unfold maybe_handle_init
  split
  · rfl
  · simp [h]

lemma maybe_handle_init_same (a : Option String) (fb : FallbackOutcome) (ts : String)
    (msg : InitMsg) (s : ConversationSession) (sid : String)
    (hE : extractSid msg.data = some sid) (hMem : s.session_id = some sid) :
    maybe_handle_init a fb ts msg s = s := by
  unfold maybe_handle_init
  split
  · rfl
  · simp [hE, hMem]

lemma maybe_handle_init_sid (a : Option String) (fb : FallbackOutcome) (ts : String)
    (msg : InitMsg) (s : ConversationSession) (sid : String)
    (hsub : msg.subtype = some "init") (hdict : msg.dataIsDict = true)
    (hE : extractSid msg.data = some sid) :
    (maybe_handle_init a fb ts msg s).session_id = some sid := by
  unfold maybe_handle_init
  have hc : ¬(msg.subtype ≠ some "init" ∨ msg.dataIsDict = false) := by
    simp [hsub, hdict]
  rw [if_neg hc, hE]
  by_cases hMem : s.session_id = some sid
  · simp [hMem]
  · simp [hMem, saveLatestSid_session_id]

/-!
## Claims
-/

/-- C1: claimed — for every init message with a new session id, the history
append is skipped when the last existing history line already ends with that
exact id.  The code's reverse scan stops at the file's trailing newline and
reads an empty last line, so the dedupe check never matches on the
newline-terminated files this program writes.  Evaluation at the failing
input: with no id in memory (fresh restart) and history "T1\tS1\n" (whose
last line "T1\tS1" ends with "\tS1"), an init message reporting "S1" still
appends a duplicate "T2\tS1" line, contradicting the claim. -/
theorem C1_dedupe_scan_eval :
    pyEndsWith "T1\tS1" ("\t" ++ "S1") = true ∧
    maybe_handle_init none FallbackOutcome.ok "T2" (initMsgFor "S1")
        { session_id := none, options := none, latestFile := some "S1",
          historyFile := some "T1\tS1\n", tmpFile := none }
      = { session_id := some "S1", options := none, latestFile := some "S1",
          historyFile := some "T1\tS1\nT2\tS1\n", tmpFile := none } := by
  decide

/-- C2: confirmed — within one run, recording the same session id twice in a
row is a no-op the second time (the in-memory comparison suppresses it), so
the id gets exactly one history line; recording S1, S2, S1 yields three
lines; and recording never rewrites or removes existing history: the file is
unchanged or gets exactly one appended line. -/
theorem C2_history_append_dedupe :
    (∀ (st : ConversationSession) (sid ts1 ts2 : String), sid ≠ "" →
        maybe_handle_init none FallbackOutcome.ok ts2 (initMsgFor sid)
            (maybe_handle_init none FallbackOutcome.ok ts1 (initMsgFor sid) st)
          = maybe_handle_init none FallbackOutcome.ok ts1 (initMsgFor sid) st) ∧
    ((maybe_handle_init none FallbackOutcome.ok "t2" (initMsgFor "S1")
        (maybe_handle_init none FallbackOutcome.ok "t1" (initMsgFor "S1") sampleSession)).historyFile
      = some "t1\tS1\n") ∧
    ((maybe_handle_init none FallbackOutcome.ok "t3" (initMsgFor "S1")
        (maybe_handle_init none FallbackOutcome.ok "t2" (initMsgFor "S2")
          (maybe_handle_init none FallbackOutcome.ok "t1" (initMsgFor "S1") sampleSession))).historyFile
      = some "t1\tS1\nt2\tS2\nt3\tS1\n") ∧
    (∀ (a : Option String) (fb : FallbackOutcome) (ts : String) (msg : InitMsg)
        (st : ConversationSession),
        (maybe_handle_init a fb ts msg st).historyFile = st.historyFile ∨
        ∃ line, (maybe_handle_init a fb ts msg st).historyFile
          = appendFile st.historyFile line) := by
  refine ⟨?_, by decide, by decide, ?_⟩
  · intro st sid ts1 ts2 h
    exact maybe_handle_init_same _ _ _ _ _ _ (extractSid_initMsgFor sid h)
      (maybe_handle_init_sid _ _ _ _ _ _ rfl rfl (extractSid_initMsgFor sid h))
  · intro a fb ts msg st
    unfold maybe_handle_init
    split
    · left; rfl
    · cases hE : extractSid msg.data with
      | none => left; rfl
      | some sid =>
        by_cases hMem : st.session_id = some sid
        · simp [hMem]
        · simp only [hMem, if_false, if_neg hMem]
          by_cases hApp : append_sid_decision st.historyFile sid
          · right
            refine ⟨ts ++ "\t" ++ sid ++ "\n", ?_⟩
            simp [hApp, saveLatestSid_historyFile]
          · left
            simp [hApp, saveLatestSid_historyFile]

/-- C2 witness: the idempotence conjunct applied at a concrete fresh state
and id. -/
theorem C2_history_append_dedupe_witness :
    maybe_handle_init none FallbackOutcome.ok "u2" (initMsgFor "W1")
        (maybe_handle_init none FallbackOutcome.ok "u1" (initMsgFor "W1") sampleSession)
      = maybe_handle_init none FallbackOutcome.ok "u1" (initMsgFor "W1") sampleSession :=
  C2_history_append_dedupe.1 sampleSession "W1" "u1" "u2" (by decide)

/-- C3: confirmed — after the `new` command (with the fallback truncate
available when removal fails), the latest-session-id file is absent or
empty, the in-memory id is cleared, and the options built by the subsequent
connect carry no resume id. -/
theorem C3_reset_clears_resume :
    ∀ (st : ConversationSession) (ts : String) (rf : Bool),
      ((resetSessionCmd rf false ts st).latestFile = none ∨
        (resetSessionCmd rf false ts st).latestFile = some "") ∧
      (resetSessionCmd rf false ts st).session_id = none ∧
      (connectStep (resetSessionCmd rf false ts st)).options
        = some { resume := none } := by
  intro st ts rf
  cases hL : st.latestFile <;> cases rf <;>
    simp [resetSessionCmd, hL, connectStep, build_options, pyStrip_empty]

/-- C4 counterexample: the claim says the reset-time history append is
skipped when the last existing history line already ends with the id; in the
code the `new` flow appends unconditionally.  With history "T0\tS1\n" (last
line "T0\tS1", which ends with "\tS1") and latest id "S1", reset still
appends a second S1 line. -/
theorem C4_reset_dedupe_counterexample :
    pyEndsWith "T0\tS1" ("\t" ++ "S1") = true ∧
    (resetSessionCmd false false "T1"
        { session_id := some "S1", options := none, latestFile := some "S1",
          historyFile := some "T0\tS1\n", tmpFile := none }).historyFile
      = some "T0\tS1\nT1\tS1\n" ∧
    (some "T0\tS1\nT1\tS1\n" : Option String) ≠ some "T0\tS1\n" := by
  decide

/-- C4 amended: during reset, a non-empty id read from the latest file is
unconditionally appended to the history log (no dedupe check); then the file
is deleted, with truncation to empty as the fallback when deletion fails
(and the contents kept only when both fail); the in-memory id is cleared. -/
theorem C4_reset_archive_amended :
    ∀ (st : ConversationSession) (c ts : String) (rf tf : Bool),
      st.latestFile = some c → pyStrip c ≠ "" →
      (resetSessionCmd rf tf ts st).historyFile
          = appendFile st.historyFile (ts ++ "\t" ++ pyStrip c ++ "\n") ∧
      (rf = false → (resetSessionCmd rf tf ts st).latestFile = none) ∧
      (rf = true → tf = false → (resetSessionCmd rf tf ts st).latestFile = some "") ∧
      (rf = true → tf = true → (resetSessionCmd rf tf ts st).latestFile = some c) ∧
      (resetSessionCmd rf tf ts st).session_id = none := by
  intro st c ts rf tf hL hs
  cases rf <;> cases tf <;> simp [resetSessionCmd, hL, hs]

/-- C4 witness: the amended theorem applied at a concrete state with a
non-empty latest id. -/
theorem C4_reset_archive_amended_witness :
    (resetSessionCmd false false "T1"
        { session_id := none, options := none, latestFile := some "S2",
          historyFile := none, tmpFile := none }).historyFile
      = appendFile none ("T1" ++ "\t" ++ pyStrip "S2" ++ "\n") :=
  (C4_reset_archive_amended
    { session_id := none, options := none, latestFile := some "S2",
      historyFile := none, tmpFile := none }
    "S2" "T1" false false rfl (by decide)).1

/-- C5: confirmed — with the latest-session-id file containing "S1", two
consecutive connect calls both build options resuming "S1"; and the options
are a function of the file alone, never of previously cached options. -/
theorem C5_idempotent_resume :
    (∀ st : ConversationSession, st.latestFile = some "S1" →
        (connectStep st).options = some { resume := some "S1" } ∧
        (connectStep (connectStep st)).options = some { resume := some "S1" }) ∧
    (∀ s1 s2 : ConversationSession, s1.latestFile = s2.latestFile →
        (connectStep s1).options = (connectStep s2).options) := by
  constructor
  · intro st h
    have hb : build_options (some "S1") = { resume := some "S1" } := by decide
    constructor <;> simp [connectStep, h, hb]
  · intro s1 s2 h
    simp [connectStep, h]

/-- C5 witness: the first conjunct applied at a concrete state whose latest
file holds "S1" and whose cached options differ. -/
theorem C5_idempotent_resume_witness :
    (connectStep
        { session_id := none, options := some { resume := some "OLD" },
          latestFile := some "S1", historyFile := none, tmpFile := none }).options
      = some { resume := some "S1" } :=
  (C5_idempotent_resume.1
    { session_id := none, options := some { resume := some "OLD" },
      latestFile := some "S1", historyFile := none, tmpFile := none } rfl).1

/-- C6 counterexample: the claim says that when the temp-write step fails
(simulated disk-full) the latest file's prior contents remain unchanged with
no partial or corrupt overwrite.  But the fallback is `open(path, "w")`,
which truncates the file on a successful open; under the claim's own
disk-full scenario the subsequent write also fails, so the prior contents
"S0" are destroyed and the file is left empty. -/
theorem C6_fallback_truncation_counterexample :
    (saveLatestSid (some "ga") (FallbackOutcome.writeFails "")
        { session_id := none, options := none, latestFile := some "S0",
          historyFile := none, tmpFile := none } "S1").latestFile = some "" ∧
    (maybe_handle_init (some "ga") (FallbackOutcome.writeFails "") "T" (initMsgFor "S1")
        { session_id := none, options := none, latestFile := some "S0",
          historyFile := none, tmpFile := none }).latestFile = some "" ∧
    (some "" : Option String) ≠ some "S0" := by
  decide

/-- C6 amended: when the temp-file write of `_write_atomic` fails (after
writing any portion `w` of the data), the atomic path itself leaves the
latest file's prior contents untouched (only the temp file is written, and
the target is only assigned by renaming a fully written temp file) and
raises OSError; the handler catches it and attempts the non-atomic fallback:
if the fallback succeeds the file holds exactly the full new id, and if the
fallback's open() itself fails the prior contents survive — but if the
fallback fails after its truncating open(), the file is left holding only
the written portion `fw` of the new id (empty under disk-full).  In every
case the failure never propagates: the handler runs to completion and still
records the new id in memory. -/
theorem C6_atomic_write_failure_amended :
    ∀ (s : ConversationSession) (sid w fw ts : String) (fb : FallbackOutcome)
      (st : ConversationSession),
      (write_atomic (some w) s sid).1.latestFile = s.latestFile ∧
      (write_atomic (some w) s sid).2 = true ∧
      (saveLatestSid (some w) FallbackOutcome.ok s sid).latestFile = some sid ∧
      (saveLatestSid (some w) FallbackOutcome.openFails s sid).latestFile = s.latestFile ∧
      (saveLatestSid (some w) (FallbackOutcome.writeFails fw) s sid).latestFile = some fw ∧
      (sid ≠ "" →
        (maybe_handle_init (some w) fb ts (initMsgFor sid) st).session_id = some sid) := by
  intro s sid w fw ts fb st
  refine ⟨rfl, rfl, rfl, rfl, rfl, ?_⟩
  intro h
  exact maybe_handle_init_sid _ _ _ _ _ _ rfl rfl (extractSid_initMsgFor sid h)

/-- C6 witness: the amended theorem applied at a concrete state with an
injected disk-full failure of both the atomic path and the fallback. -/
theorem C6_atomic_write_failure_amended_witness :
    (saveLatestSid (some "ga") FallbackOutcome.openFails sampleSession "S3").latestFile
        = sampleSession.latestFile ∧
    (maybe_handle_init (some "ga") (FallbackOutcome.writeFails "") "T" (initMsgFor "S3")
        sampleSession).session_id = some "S3" :=
  ⟨(C6_atomic_write_failure_amended sampleSession "S3" "ga" "" "T"
      (FallbackOutcome.writeFails "") sampleSession).2.2.2.1,
   (C6_atomic_write_failure_amended sampleSession "S3" "ga" "" "T"
      (FallbackOutcome.writeFails "") sampleSession).2.2.2.2.2 (by decide)⟩

/-- C7: confirmed — in a batch of assistant blocks, a malformed block (here
a ToolResultBlock whose content attribute is missing, so content is None and
reading content.status raises AttributeError) produces exactly one
debug-level error log entry, is skipped, and leaves the rendering of all
preceding and following blocks intact; the renderer itself never raises
(each block body's exception is caught by its own failure boundary). -/
theorem C7_renderer_block_isolation :
    ∀ pre post : List ABlock,
      displayAssistantMessage (pre ++ ABlock.toolResultBlock RContent.rnone :: post)
        = ((displayAssistantMessage pre).1 ++ (displayAssistantMessage post).1,
           (displayAssistantMessage pre).2
             ++ "DEBUG Error rendering assistant block: AttributeError"
               :: (displayAssistantMessage post).2) := by
  intro pre post
  simp [displayAssistantMessage, renderAssistantBlock, renderAssistantBlockRaw, getStatus]

/-- C8 counterexample: an assistant ToolResultBlock with structured (dict)
content is not rendered as truncated pretty-printed JSON on console and log:
the code reads `content.status` on the dict, which raises AttributeError, so
the console gets only the "[Tool result]:" header, the log only a debug
entry, and the JSON text appears in neither. -/
theorem C8_assistant_json_counterexample :
    renderAssistantBlock (ABlock.toolResultBlock
        (RContent.rdict [("a", "b")] "\x7b\n  \"a\": \"b\"\n\x7d"))
      = (["[Tool result]:"], ["DEBUG Error rendering assistant block: AttributeError"]) ∧
    pyTake 2000 "\x7b\n  \"a\": \"b\"\n\x7d" ∉ (["[Tool result]:"] : List String) ∧
    pyTake 2000 "\x7b\n  \"a\": \"b\"\n\x7d"
      ∉ (["DEBUG Error rendering assistant block: AttributeError"] : List String) := by
  decide

/-- C8 amended: user-originated tool-result blocks with structured (dict or
list) content are rendered only to the log, as the pretty-printed JSON
truncated to 200 characters; assistant-originated tool-result blocks with
structured content — dict or list alike — print only a "[Tool result]:"
header before failing with AttributeError on the status read (a dict's
status entry may be logged first, then a debug entry), so their JSON is
never printed or logged; in one-shot mode the console preview of structured
content is the compact JSON truncated to 1000 characters. -/
theorem C8_tool_result_preview_amended :
    ∀ (entries : List (String × String)) (d : String) (fs : List (String × JVal))
      (ps : List OSPart),
      renderUserBlock (UBlock.utoolResultBlock (RContent.rdict entries d))
          = ([], ["INFO User (tool result preview): " ++ pyTake 200 d]) ∧
      renderUserBlock (UBlock.utoolResultBlock (RContent.rlist d))
          = ([], ["INFO User (tool result preview): " ++ pyTake 200 d]) ∧
      (renderAssistantBlock (ABlock.toolResultBlock (RContent.rdict entries d))).1
          = ["[Tool result]:"] ∧
      (renderAssistantBlock (ABlock.toolResultBlock (RContent.rdict entries d))).2
          = (match entries.lookup "status" with
             | some st => ["INFO Tool status: " ++ st]
             | none => []) ++ ["DEBUG Error rendering assistant block: AttributeError"] ∧
      renderAssistantBlock (ABlock.toolResultBlock (RContent.rlist d))
          = (["[Tool result]:"],
             ["DEBUG Error rendering assistant block: AttributeError"]) ∧
      oneShotPreviewLine (OSContent.cdict fs d)
          = "[Tool result] preview: " ++ pyTake 1000 d ∧
      oneShotPreviewLine (OSContent.clist ps d)
          = "[Tool result] preview: " ++ pyTake 1000 d := by
  intro entries d fs ps
  refine ⟨rfl, rfl, ?_, ?_, rfl, rfl, rfl⟩ <;>
    cases h : entries.lookup "status" <;>
      simp [renderAssistantBlock, renderAssistantBlockRaw, getStatus, h]

/-- C9: confirmed — in the one-shot loop, a tool-result block whose inner
text payload parses (via json.loads, modelled by the `parse` parameter) to
an object with ok = false or status in ("insufficient", "error") has that
parsed object appended to the Agent State's data_issues list, and every
other field of the state — in particular results — is left unchanged by that
block. -/
theorem C9_tool_error_to_data_issues :
    ∀ (parse : String → Option JVal) (txt d : String) (fs : List (String × JVal))
      (st : AgentState),
      parse (pyStrip txt) = some (JVal.jobj fs) →
      errorShape (JVal.jobj fs) = true →
      processToolResultBlock parse
          (OSContent.clist [{ isDict := true, ptype := some "text", ptext := some txt }] d) st
        = { st with data_issues := st.data_issues ++ [JVal.jobj fs] } := by
  intro parse txt d fs st hp he
  have hfs : fs ≠ [] := by
    intro h
    subst h
    simp [errorShape, jLookup, List.lookup] at he
  have htruthy : pyTruthy (JVal.jobj fs) = true := by
    cases fs with
    | nil => exact absurd rfl hfs
    | cons a l => simp [pyTruthy]
  simp [processToolResultBlock, extractParsed, findTextPart, parseWithRaw, hp, htruthy,
    updateStateForParsed, he]

/-- C9 witness: the theorem applied with a constant parse function returning
the spec's example error object, at a fresh Agent State. -/
theorem C9_tool_error_to_data_issues_witness :
    processToolResultBlock
        (fun _ => some (JVal.jobj [("ok", JVal.jbool false), ("status", JVal.jstr "error"),
          ("error", JVal.jstr "file not found")]))
        (OSContent.clist [{ isDict := true, ptype := some "text", ptext := some "x" }] "d")
        { query := "q", intent := none, results := none, insights := none, data_issues := [] }
      = { query := "q", intent := none, results := none, insights := none,
          data_issues := [JVal.jobj [("ok", JVal.jbool false), ("status", JVal.jstr "error"),
            ("error", JVal.jstr "file not found")]] } :=
  C9_tool_error_to_data_issues
    (fun _ => some (JVal.jobj [("ok", JVal.jbool false), ("status", JVal.jstr "error"),
      ("error", JVal.jstr "file not found")]))
    "x" "d"
    [("ok", JVal.jbool false), ("status", JVal.jstr "error"),
      ("error", JVal.jstr "file not found")]
    { query := "q", intent := none, results := none, insights := none, data_issues := [] }
    rfl rfl

/-- C10: confirmed — the init handler leaves the latest-session-id file, the
history log and the in-memory id unchanged whenever the message's subtype is
not "init", or its data carries none of the keys session_id / sessionId / id
(or only falsy values for them), or the reported id equals the in-memory
one. -/
theorem C10_init_noop_frame :
    ∀ (a : Option String) (fb : FallbackOutcome) (ts : String) (msg : InitMsg)
      (st : ConversationSession),
      (msg.subtype ≠ some "init" ∨ extractSid msg.data = none ∨
        (∃ sid, extractSid msg.data = some sid ∧ st.session_id = some sid)) →
      (maybe_handle_init a fb ts msg st).latestFile = st.latestFile ∧
      (maybe_handle_init a fb ts msg st).historyFile = st.historyFile ∧
      (maybe_handle_init a fb ts msg st).session_id = st.session_id := by
  intro a fb ts msg st h
  have heq : maybe_handle_init a fb ts msg st = st := by
    rcases h with h | h | ⟨sid, hE, hMem⟩
    · exact maybe_handle_init_notinit a fb ts msg st h
    · exact maybe_handle_init_nosid a fb ts msg st h
    · exact maybe_handle_init_same a fb ts msg st sid hE hMem
  rw [heq]
  exact ⟨rfl, rfl, rfl⟩

/-- C10 witness: the theorem applied to a non-init message at a concrete
state. -/
theorem C10_init_noop_frame_witness :
    (maybe_handle_init none FallbackOutcome.ok "T"
        { subtype := some "result", dataIsDict := true, data := [("id", "S9")] }
        sampleSession).latestFile = sampleSession.latestFile :=
  (C10_init_noop_frame none FallbackOutcome.ok "T"
    { subtype := some "result", dataIsDict := true, data := [("id", "S9")] }
    sampleSession (Or.inl (by decide))).1
